import Mathlib

/-!
Shallow embedding of `database/schema/schema.go` of the goravel framework
(the `Schema` facade: driver dispatch at construction, the transactional
build protocol for mutating operations, and the introspection-derived
listing / existence predicates), together with proofs of the specified
properties.  External collaborators (the configuration store, the Orm
query engine, the logging sink, the per-dialect Grammar / Processor /
DriverSchema plugins and the Blueprint build step) are modelled at their
interface boundary exactly as the specification describes them; everything
else is translated directly from the source.
-/

namespace Goravel

/-- Errors coming back from the underlying query engine are opaque to this
layer; they are modelled as strings. -/
abbrev Err := String

/-- Migrations are opaque externally-supplied units that the Schema merely
stores; modelled as opaque identifiers. -/
abbrev Migration := String

/-- Observable transaction events emitted by the query-engine collaborator:
opening a new transaction, committing it, rolling it back. -/
inductive TxEvent where
  | beginTx
  | commitTx
  | rollbackTx
deriving DecidableEq, Repr

/-- A query handle, as seen by this layer: the only observation the schema
code makes on it is `InTransaction()`. -/
structure Query where
  inTx : Bool
deriving DecidableEq, Repr

/-- The Orm connection handle collaborator: exposes the connection name and
the current query handle. -/
structure Orm where
  name : String
  inTx : Bool
deriving DecidableEq, Repr

/-- Mirrors `r.orm.Query()`: the current query handle of the connection. -/
def Orm.query (o : Orm) : Query :=
  { inTx := o.inTx }

/-- Modelled from the spec: `Connection(name)` on the Orm collaborator
rebinds to another configured connection (a fresh handle, not inside a
transaction). -/
def Orm.connection (_o : Orm) (name : String) : Orm :=
  { name := name, inTx := false }

/-- Modelled from the spec: `Orm.Transaction(f)` opens a new transaction,
runs the body against the transactional handle, commits when the body
returns nil and rolls back when it returns an error, propagating the
body's result.  The second component is the trace of transaction events. -/
def Orm.transaction (_o : Orm) (f : Query → Except Err Unit) :
    Except Err Unit × List TxEvent :=
  match f { inTx := true } with
  | .ok _ => (.ok (), [TxEvent.beginTx, TxEvent.commitTx])
  | .error e => (.error e, [TxEvent.beginTx, TxEvent.rollbackTx])

/-- Modelled from the spec: the configuration store, a key-value map with
`GetString(key)` and `GetString(key, default)`. -/
structure Config where
  values : String → Option String

/-- Mirrors `config.GetString(key)`: the empty string when the key is
absent. -/
def Config.getString (c : Config) (key : String) : String :=
  (c.values key).getD ""

/-- Mirrors `config.GetString(key, default)`. -/
def Config.getStringD (c : Config) (key d : String) : String :=
  (c.values key).getD d

/-- The per-dialect Grammar collaborator, identified by which constructor
the dispatch switch selected and the arguments it was constructed with
(`grammars.NewPostgres(prefix)`, ..., `grammars.NewSqlite(log, prefix)`). -/
inductive Grammar where
  | postgres (pfx : String)
  | mysql (pfx : String)
  | sqlserver (pfx : String)
  | sqlite (lg : String) (pfx : String)
deriving DecidableEq, Repr

/-- The per-dialect Processor collaborator
(`processors.NewPostgres()`, ...). -/
inductive Processor where
  | postgres
  | mysql
  | sqlserver
  | sqlite
deriving DecidableEq, Repr

/-- The per-dialect DriverSchema implementation, identified by which
constructor was selected and its construction arguments
(`NewPostgresSchema(grammar, orm, schema, prefix)`, ...). -/
inductive DriverSchemaTag where
  | postgres (g : Grammar) (orm : Orm) (schema : String) (pfx : String)
  | mysql (g : Grammar) (orm : Orm) (pfx : String)
  | sqlserver (g : Grammar) (orm : Orm) (pfx : String)
  | sqlite (g : Grammar) (orm : Orm) (pfx : String)
deriving DecidableEq, Repr

/-- The fatal configuration error raised when the configured driver is not
one of the supported kinds (`errors.SchemaDriverNotSupported.Args(driver)`,
surfaced through a panic; panicking construction is embedded as an
`Except.error` result). -/
inductive ConstructError where
  | schemaDriverNotSupported (driver : String)
deriving DecidableEq, Repr

/-- The Schema facade state: the dialect collaborators resolved at
construction plus the bookkeeping fields, mirroring the fields of the Go
`Schema` struct (the table-name prefix field is called `pfx` here). -/
structure Schema where
  driverSchema : DriverSchemaTag
  config : Config
  grammar : Grammar
  log : String
  migrations : List Migration
  orm : Orm
  pfx : String
  processor : Processor
  schema : String

/-- Modelled from the spec: the driver identifier for the Postgres-family
engine (`contractsdatabase.DriverPostgres`). -/
def DriverPostgres : String := "postgres"

/-- Modelled from the spec: the driver identifier for the MySQL-family
engine (`contractsdatabase.DriverMysql`). -/
def DriverMysql : String := "mysql"

/-- Modelled from the spec: the driver identifier for the SQL-Server-family
engine (`contractsdatabase.DriverSqlserver`). -/
def DriverSqlserver : String := "sqlserver"

/-- Modelled from the spec: the driver identifier for the embedded SQLite
engine (`contractsdatabase.DriverSqlite`). -/
def DriverSqlite : String := "sqlite"

/-- Mirrors `fmt.Sprintf("database.connections.%s.<field>", name)`. -/
def connKey (conn field : String) : String :=
  "database.connections." ++ conn ++ "." ++ field

/-- Mirrors `NewSchema`: resolves the connection's driver and prefix from
configuration, branches on the driver kind to select the matching Grammar,
Processor and DriverSchema (resolving the schema / database setting for the
dialects that use one), and fails with `SchemaDriverNotSupported` on any
other driver string. -/
def NewSchema (cfg : Config) (lg : String) (orm : Orm)
    (migrations : List Migration) : Except ConstructError Schema :=
  let driver := cfg.getString (connKey orm.name "driver")
  let pfx := cfg.getString (connKey orm.name "prefix")
  if driver = DriverPostgres then
    let schema := cfg.getStringD (connKey orm.name "schema") "public"
    .ok { driverSchema := .postgres (.postgres pfx) orm schema pfx,
          config := cfg, grammar := .postgres pfx, log := lg,
          migrations := migrations, orm := orm, pfx := pfx,
          processor := .postgres, schema := schema }
  else if driver = DriverMysql then
    let schema := cfg.getString (connKey orm.name "database")
    .ok { driverSchema := .mysql (.mysql pfx) orm pfx,
          config := cfg, grammar := .mysql pfx, log := lg,
          migrations := migrations, orm := orm, pfx := pfx,
          processor := .mysql, schema := schema }
  else if driver = DriverSqlserver then
    .ok { driverSchema := .sqlserver (.sqlserver pfx) orm pfx,
          config := cfg, grammar := .sqlserver pfx, log := lg,
          migrations := migrations, orm := orm, pfx := pfx,
          processor := .sqlserver, schema := "" }
  else if driver = DriverSqlite then
    .ok { driverSchema := .sqlite (.sqlite lg pfx) orm pfx,
          config := cfg, grammar := .sqlite lg pfx, log := lg,
          migrations := migrations, orm := orm, pfx := pfx,
          processor := .sqlite, schema := "" }
  else
    .error (.schemaDriverNotSupported driver)

/-- Mirrors `Schema.Connection`: builds an entirely new Schema for the
named connection by re-running construction. -/
def Schema.connection (s : Schema) (name : String) :
    Except ConstructError Schema :=
  NewSchema s.config s.log (s.orm.connection name) s.migrations

/-- Mirrors `Schema.SetConnection`: rebinds the stored orm handle to the
named connection (the Go method mutates the receiver in place; the
embedding returns the updated state). -/
def Schema.setConnection (s : Schema) (name : String) : Schema :=
  { s with orm := s.orm.connection name }

/-- Mirrors `Schema.GetConnection`. -/
def Schema.getConnection (s : Schema) : String :=
  s.orm.name

/-- Mirrors `Schema.Migrations`. -/
def Schema.migrationsOf (s : Schema) : List Migration :=
  s.migrations

/-- Mirrors `Schema.Register`: replaces the stored migration list. -/
def Schema.register (s : Schema) (migrations : List Migration) : Schema :=
  { s with migrations := migrations }

/-- The pending table-level action of a Blueprint. -/
inductive BlueprintAction where
  | alter
  | create
  | drop
  | dropIfExists
  | rename (toName : String)
deriving DecidableEq, Repr

/-- A column/index command accumulated on a Blueprint. -/
inductive BlueprintCommand where
  | dropColumn (column : String)
deriving DecidableEq, Repr

/-- Modelled from the spec: the Blueprint is a per-table single-use
accumulator owning the table name, a pending action tag and an ordered
command list; its own source file is not part of this repository's files,
only the facade that drives it is. -/
structure Blueprint where
  pfx : String
  table : String
  action : BlueprintAction
  commands : List BlueprintCommand
deriving DecidableEq, Repr

/-- Mirrors `Schema.createBlueprint`: a fresh Blueprint for the table,
carrying the configured prefix. -/
def Schema.createBlueprint (s : Schema) (table : String) : Blueprint :=
  { pfx := s.pfx, table := table, action := .alter, commands := [] }

/-- Mirrors `blueprint.Create()`. -/
def Blueprint.create (b : Blueprint) : Blueprint :=
  { b with action := .create }

/-- Mirrors `blueprint.Drop()`. -/
def Blueprint.drop (b : Blueprint) : Blueprint :=
  { b with action := .drop }

/-- Mirrors `blueprint.DropIfExists()`. -/
def Blueprint.dropIfExists (b : Blueprint) : Blueprint :=
  { b with action := .dropIfExists }

/-- Mirrors `blueprint.Rename(to)`. -/
def Blueprint.rename (b : Blueprint) (toName : String) : Blueprint :=
  { b with action := .rename toName }

/-- Mirrors `blueprint.DropColumn(columns...)`. -/
def Blueprint.dropColumn (b : Blueprint) (columns : List String) : Blueprint :=
  { b with commands := b.commands ++ columns.map BlueprintCommand.dropColumn }

/-- The external `Blueprint.Build(query, grammar)` step: dialect code that
compiles and executes the accumulated plan against a query handle.  Its
behaviour is a collaborator parameter of the mutating operations. -/
abbrev BuildStep := Blueprint → Query → Except Err Unit

/-- Mirrors `Schema.build`: when the current query handle is already inside
a transaction the Blueprint is built directly against it; otherwise the
build runs inside a newly opened transaction via `Orm.Transaction`.  The
second component is the trace of transaction events produced. -/
def Schema.build (s : Schema) (bb : BuildStep) (b : Blueprint) :
    Except Err Unit × List TxEvent :=
  if (s.orm.query).inTx then
    (bb b s.orm.query, [])
  else
    s.orm.transaction (bb b)

/-- The operation-specific error kinds wrapping a mutating operation's
build failure, each carrying the table name and the underlying cause
(`errors.SchemaFailedToCreateTable.Args(table, err)`, ...). -/
inductive SchemaError where
  | failedToCreateTable (table : String) (cause : Err)
  | failedToDropTable (table : String) (cause : Err)
  | failedToDropColumns (table : String) (cause : Err)
  | failedToRenameTable (table : String) (cause : Err)
  | failedToChangeTable (table : String) (cause : Err)
deriving DecidableEq, Repr

/-- Mirrors `Schema.Create`: fresh Blueprint, mark create, run the caller's
callback, build transactionally, wrap any failure as
`FailedToCreateTable`. -/
def Schema.create (s : Schema) (bb : BuildStep) (table : String)
    (callback : Blueprint → Blueprint) : Except SchemaError Unit × List TxEvent :=
  let blueprint := callback (s.createBlueprint table).create
  match s.build bb blueprint with
  | (.ok _, evs) => (.ok (), evs)
  | (.error e, evs) => (.error (.failedToCreateTable table e), evs)

/-- Mirrors `Schema.Drop`. -/
def Schema.drop (s : Schema) (bb : BuildStep) (table : String) :
    Except SchemaError Unit × List TxEvent :=
  let blueprint := (s.createBlueprint table).drop
  match s.build bb blueprint with
  | (.ok _, evs) => (.ok (), evs)
  | (.error e, evs) => (.error (.failedToDropTable table e), evs)

/-- Mirrors `Schema.DropColumns`. -/
def Schema.dropColumns (s : Schema) (bb : BuildStep) (table : String)
    (columns : List String) : Except SchemaError Unit × List TxEvent :=
  let blueprint := (s.createBlueprint table).dropColumn columns
  match s.build bb blueprint with
  | (.ok _, evs) => (.ok (), evs)
  | (.error e, evs) => (.error (.failedToDropColumns table e), evs)

/-- Mirrors `Schema.DropIfExists`. -/
def Schema.dropIfExists (s : Schema) (bb : BuildStep) (table : String) :
    Except SchemaError Unit × List TxEvent :=
  let blueprint := (s.createBlueprint table).dropIfExists
  match s.build bb blueprint with
  | (.ok _, evs) => (.ok (), evs)
  | (.error e, evs) => (.error (.failedToDropTable table e), evs)

/-- Mirrors `Schema.Rename`. -/
def Schema.renameTable (s : Schema) (bb : BuildStep) (from_ toName : String) :
    Except SchemaError Unit × List TxEvent :=
  let blueprint := (s.createBlueprint from_).rename toName
  match s.build bb blueprint with
  | (.ok _, evs) => (.ok (), evs)
  | (.error e, evs) => (.error (.failedToRenameTable from_ e), evs)

/-- Mirrors `Schema.Table`: fresh Blueprint populated only by the caller's
callback, built transactionally, failures wrapped as
`FailedToChangeTable`. -/
def Schema.table (s : Schema) (bb : BuildStep) (table : String)
    (callback : Blueprint → Blueprint) : Except SchemaError Unit × List TxEvent :=
  let blueprint := callback (s.createBlueprint table)
  match s.build bb blueprint with
  | (.ok _, evs) => (.ok (), evs)
  | (.error e, evs) => (.error (.failedToChangeTable table e), evs)

/-- Modelled from the spec: the normalized Column entity; only its `Name`
field is read by this layer, the remaining metadata is opaque. -/
structure Column where
  name : String
  meta : String
deriving DecidableEq, Repr

/-- Modelled from the spec: the normalized Index entity. -/
structure Index where
  name : String
  meta : String
deriving DecidableEq, Repr

/-- Modelled from the spec: the schema-qualified Table entity as returned
by introspection; `name` already carries the configured prefix. -/
structure Table where
  name : String
  schema : String
deriving DecidableEq, Repr

/-- Modelled from the spec: the normalized View entity. -/
structure View where
  name : String
deriving DecidableEq, Repr

/-- Modelled from the spec: the normalized user-defined Type entity. -/
structure TypeEntity where
  name : String
deriving DecidableEq, Repr

/-- Modelled from the spec: the raw, dialect-specific foreign-key row
shape returned by the introspection SQL, before normalization. -/
structure DBForeignKey where
  raw : String
deriving DecidableEq, Repr

/-- Modelled from the spec: the Processor-normalized ForeignKey entity. -/
structure ForeignKey where
  name : String
deriving DecidableEq, Repr

/-- The observable behaviour of the embedded DriverSchema collaborator
(`GetColumns` / `GetIndexes` / `GetTables` / `GetViews` / `GetTypes`) in
the current database state: dialect code outside this layer, passed as a
parameter of the derived introspection operations. -/
structure DriverQueries where
  getColumns : String → Except Err (List Column)
  getIndexes : String → Except Err (List Index)
  getTables : Except Err (List Table)
  getViews : Except Err (List View)
  getTypes : Except Err (List TypeEntity)

/-- Modelled from the spec: the text of the `SchemaFailedToGetTables`
error, naming the connection and the underlying cause. -/
def schemaFailedToGetTablesMsg (conn e : String) : String :=
  "failed to get tables of connection " ++ conn ++ ": " ++ e

/-- Mirrors `Schema.GetColumnListing`: on introspection failure logs and
returns the empty listing, on success projects the `Name` fields in order.
The second component is the list of messages sent to the logging sink. -/
def Schema.getColumnListing (_s : Schema) (dq : DriverQueries)
    (table : String) : List String × List String :=
  match dq.getColumns table with
  | .error e => ([], ["failed to get " ++ table ++ " columns: " ++ e])
  | .ok columns => (columns.map Column.name, [])

/-- Mirrors `Schema.GetIndexListing`. -/
def Schema.getIndexListing (_s : Schema) (dq : DriverQueries)
    (table : String) : List String × List String :=
  match dq.getIndexes table with
  | .error e => ([], ["failed to get " ++ table ++ " indexes: " ++ e])
  | .ok indexes => (indexes.map Index.name, [])

/-- Mirrors `Schema.GetTableListing`. -/
def Schema.getTableListing (_s : Schema) (dq : DriverQueries) :
    List String × List String :=
  match dq.getTables with
  | .error e => ([], ["failed to get tables: " ++ e])
  | .ok tables => (tables.map Table.name, [])

/-- Mirrors `Schema.HasColumn`: membership in the column listing. -/
def Schema.hasColumn (s : Schema) (dq : DriverQueries)
    (table column : String) : Bool × List String :=
  let r := s.getColumnListing dq table
  (r.1.contains column, r.2)

/-- Mirrors `Schema.HasColumns`: every requested column is a member of the
column listing. -/
def Schema.hasColumns (s : Schema) (dq : DriverQueries) (table : String)
    (columns : List String) : Bool × List String :=
  let r := s.getColumnListing dq table
  (columns.all (fun column => r.1.contains column), r.2)

/-- Mirrors `Schema.HasIndex`: membership in the index listing. -/
def Schema.hasIndex (s : Schema) (dq : DriverQueries)
    (table index : String) : Bool × List String :=
  let r := s.getIndexListing dq table
  (r.1.contains index, r.2)

/-- Splits a character list at its last dot, mirroring
`strings.LastIndex(name, ".")` with the two slices `name[:i]` and
`name[i+1:]`; `none` when the name contains no dot
(`strings.Contains(name, ".")` is false). -/
def splitLastDot : List Char → Option (List Char × List Char)
  | [] => none
  | c :: rest =>
    match splitLastDot rest with
    | some (pre, post) => some (c :: pre, post)
    | none => if c = '.' then some ([], rest) else none

/-- Mirrors `Schema.HasTable`: strips an optional `schema.` qualifier at
the last dot, prefixes the remaining table part, fetches all tables
(logging and returning false on failure), and scans for a table of that
name whose schema matches the qualifier when one was given. -/
def Schema.hasTable (s : Schema) (dq : DriverQueries) (name : String) :
    Bool × List String :=
  let parts :=
    match splitLastDot name.data with
    | some (pre, post) => (String.mk pre, String.mk post)
    | none => ("", name)
  let tableName := s.pfx ++ parts.2
  match dq.getTables with
  | .error e => (false, [schemaFailedToGetTablesMsg s.orm.name e])
  | .ok tables =>
    (tables.any (fun t =>
      t.name == tableName && (parts.1 == "" || parts.1 == t.schema)), [])

/-- Mirrors `Schema.HasType`: scans the type entities for an exact name
match; failures are logged and reported as false. -/
def Schema.hasType (s : Schema) (dq : DriverQueries) (name : String) :
    Bool × List String :=
  match dq.getTypes with
  | .error e => (false, [schemaFailedToGetTablesMsg s.orm.name e])
  | .ok types => (types.any (fun t => t.name == name), [])

/-- Mirrors `Schema.HasView`: scans the view entities for an exact name
match; failures are logged and reported as false. -/
def Schema.hasView (s : Schema) (dq : DriverQueries) (name : String) :
    Bool × List String :=
  match dq.getViews with
  | .error e => (false, [schemaFailedToGetTablesMsg s.orm.name e])
  | .ok views => (views.any (fun v => v.name == name), [])

/-- The collaborators used by `GetForeignKeys`: the Grammar's
`CompileForeignKeys(schema, table)` compiler, the query engine's
`Raw(sql).Scan(&rows)` execution, and the Processor's
`ProcessForeignKeys(rows)` normalizer — all dialect code outside this
layer. -/
structure ForeignKeyCollab where
  compileForeignKeys : String → String → String
  rawScan : String → Except Err (List DBForeignKey)
  processForeignKeys : List DBForeignKey → List ForeignKey

/-- Mirrors `Schema.GetForeignKeys`: prefixes the table name, compiles the
introspection query via the Grammar with the configured schema, runs it,
and either propagates the query error unmodified or returns the
Processor-normalized foreign keys. -/
def Schema.getForeignKeys (s : Schema) (fc : ForeignKeyCollab)
    (table : String) : Except Err (List ForeignKey) :=
  let table := s.pfx ++ table
  match fc.rawScan (fc.compileForeignKeys s.schema table) with
  | .error e => .error e
  | .ok rows => .ok (fc.processForeignKeys rows)

/-- Following the spec's words (a refinement reference, not a source
translation): the grammar, processor and prefix / schema settings
re-resolved from configuration for a given connection name; `none` when
the configured driver is unsupported. -/
def specResolveDialect (cfg : Config) (lg : String) (conn : String) :
    Option (Grammar × Processor × String × String) :=
  let driver := cfg.getString (connKey conn "driver")
  let p := cfg.getString (connKey conn "prefix")
  if driver = DriverPostgres then
    some (.postgres p, .postgres, p, cfg.getStringD (connKey conn "schema") "public")
  else if driver = DriverMysql then
    some (.mysql p, .mysql, p, cfg.getString (connKey conn "database"))
  else if driver = DriverSqlserver then
    some (.sqlserver p, .sqlserver, p, "")
  else if driver = DriverSqlite then
    some (.sqlite lg p, .sqlite, p, "")
  else
    none

/-- A concrete configuration: connection `a` uses the postgres driver,
connection `b` uses the mysql driver, nothing else is set. -/
def cfgAB : Config :=
  { values := fun k =>
      if k = "database.connections.a.driver" then some "postgres"
      else if k = "database.connections.b.driver" then some "mysql"
      else none }

/-- A concrete configuration whose only connection has an unsupported
driver string. -/
def cfgBad : Config :=
  { values := fun k =>
      if k = "database.connections.a.driver" then some "oracle" else none }

/-- A concrete connection handle named `a`, not inside a transaction. -/
def ormA : Orm := { name := "a", inTx := false }

/-- A concrete connection handle named `b`, not inside a transaction. -/
def ormB : Orm := { name := "b", inTx := false }

/-- The Schema that `NewSchema cfgAB "lg" ormA []` constructs. -/
def sA : Schema :=
  { driverSchema := .postgres (.postgres "") ormA "public" "",
    config := cfgAB, grammar := .postgres "", log := "lg",
    migrations := [], orm := ormA, pfx := "",
    processor := .postgres, schema := "public" }

/-- The Schema that `NewSchema cfgAB "lg" ormB []` constructs. -/
def sB : Schema :=
  { driverSchema := .mysql (.mysql "") ormB "",
    config := cfgAB, grammar := .mysql "", log := "lg",
    migrations := [], orm := ormB, pfx := "",
    processor := .mysql, schema := "" }

/-- A build step that always fails with the error `boom`. -/
def bbFail : BuildStep := fun _ _ => .error "boom"

/-- A concrete blueprint for table `t`. -/
def bpT : Blueprint := sA.createBlueprint "t"

/-- Driver queries that all fail with the error `boom`. -/
def dqBoom : DriverQueries :=
  { getColumns := fun _ => .error "boom", getIndexes := fun _ => .error "boom",
    getTables := .error "boom", getViews := .error "boom",
    getTypes := .error "boom" }

/-- A concrete table named `t` living in schema `s`. -/
def tblTS : Table := { name := "t", schema := "s" }

/-- Driver queries whose table introspection succeeds with the single
table `tblTS`. -/
def dqTbl : DriverQueries :=
  { getColumns := fun _ => .error "x", getIndexes := fun _ => .error "x",
    getTables := .ok [tblTS], getViews := .error "x",
    getTypes := .error "x" }

/-- A concrete column entity. -/
def colC : Column := { name := "c", meta := "int" }

/-- A concrete index entity. -/
def idxI : Index := { name := "i", meta := "btree" }

/-- Driver queries that succeed on every introspection call. -/
def dqOk : DriverQueries :=
  { getColumns := fun _ => .ok [colC], getIndexes := fun _ => .ok [idxI],
    getTables := .ok [tblTS], getViews := .ok [], getTypes := .ok [] }

/-- Foreign-key collaborators whose query execution fails with `boom`. -/
def fcBoom : ForeignKeyCollab :=
  { compileForeignKeys := fun sc t => sc ++ "|" ++ t,
    rawScan := fun _ => .error "boom",
    processForeignKeys := fun rows => rows.map (fun r => { name := r.raw }) }

/-- Foreign-key collaborators whose query execution returns one raw row
echoing the compiled SQL. -/
def fcEcho : ForeignKeyCollab :=
  { compileForeignKeys := fun sc t => sc ++ "|" ++ t,
    rawScan := fun sql => .ok [{ raw := sql }],
    processForeignKeys := fun rows => rows.map (fun r => { name := r.raw }) }

/-- A concrete table named `c` living in the dotted schema `a.b`. -/
def tblABC : Table := { name := "c", schema := "a.b" }

/-- Driver queries whose table introspection succeeds with the single
table `tblABC`. -/
def dqABC : DriverQueries :=
  { getColumns := fun _ => .error "x", getIndexes := fun _ => .error "x",
    getTables := .ok [tblABC], getViews := .error "x",
    getTypes := .error "x" }

theorem splitLastDot_eq_none (cs : List Char) (h : '.' ∉ cs) :
    splitLastDot cs = none := by
  induction cs with
  | nil => rfl
  | cons c rest ih =>
    rw [List.mem_cons, not_or] at h
    rw [splitLastDot, ih h.2]
    simp [Ne.symm h.1]

theorem splitLastDot_append (pre post : List Char) (h : '.' ∉ post) :
    splitLastDot (pre ++ '.' :: post) = some (pre, post) := by
  induction pre with
  | nil => simp [splitLastDot, splitLastDot_eq_none post h]
  | cons c pre ih => simp [splitLastDot, ih]

theorem hasTable_split_iff (s : Schema) (dq : DriverQueries)
    (tables : List Table) (hT : dq.getTables = .ok tables)
    (pre post : List Char) (hpost : '.' ∉ post) :
    ((s.hasTable dq (String.mk (pre ++ '.' :: post))).1 = true) ↔
      ∃ t ∈ tables, t.name = s.pfx ++ String.mk post ∧
        (pre = [] ∨ t.schema = String.mk pre) := by
  unfold Schema.hasTable
  rw [show (String.mk (pre ++ '.' :: post)).data = pre ++ '.' :: post from rfl,
    splitLastDot_append pre post hpost, hT]
  simp [List.any_eq_true, Bool.and_eq_true, Bool.or_eq_true, beq_iff_eq,
    String.ext_iff, @eq_comm _ (String.mk pre)]

theorem hasTable_nodot_iff (s : Schema) (dq : DriverQueries)
    (tables : List Table) (hT : dq.getTables = .ok tables)
    (nm : String) (hnm : '.' ∉ nm.data) :
    ((s.hasTable dq nm).1 = true) ↔
      ∃ t ∈ tables, t.name = s.pfx ++ nm := by
  unfold Schema.hasTable
  rw [splitLastDot_eq_none nm.data hnm, hT]
  simp [List.any_eq_true, Bool.and_eq_true, Bool.or_eq_true, beq_iff_eq]

/-- C9: `SetConnection(name)` rebinds only the orm field of the Schema to
the named connection; the driverSchema, grammar, processor, prefix,
schema, config, log and migrations fields all keep the values resolved at
the original construction. -/
theorem setConnection_frame (s : Schema) (n : String) :
    (s.setConnection n).orm = s.orm.connection n ∧
    (s.setConnection n).driverSchema = s.driverSchema ∧
    (s.setConnection n).grammar = s.grammar ∧
    (s.setConnection n).processor = s.processor ∧
    (s.setConnection n).pfx = s.pfx ∧
    (s.setConnection n).schema = s.schema ∧
    (s.setConnection n).config = s.config ∧
    (s.setConnection n).log = s.log ∧
    (s.setConnection n).migrations = s.migrations :=
  ⟨rfl, rfl, rfl, rfl, rfl, rfl, rfl, rfl, rfl⟩

/-- C1: the internal build step of every mutating operation builds the
Blueprint directly against the current query handle when that handle is
already inside a transaction (emitting no transaction events), and
otherwise runs the build inside a single newly opened transaction that
commits on success and rolls back on any error returned by the build
step; each mutating operation's transaction trace is exactly that of the
shared build step. -/
theorem build_transaction_protocol (s : Schema) (bb : BuildStep)
    (b : Blueprint) :
    ((s.orm.query).inTx = true → s.build bb b = (bb b s.orm.query, [])) ∧
    ((s.orm.query).inTx = false →
      (∀ e, bb b { inTx := true } = .error e →
        s.build bb b = (.error e, [TxEvent.beginTx, TxEvent.rollbackTx])) ∧
      (bb b { inTx := true } = .ok () →
        s.build bb b = (.ok (), [TxEvent.beginTx, TxEvent.commitTx]))) ∧
    (∀ table cb, (s.create bb table cb).2 =
      (s.build bb (cb (s.createBlueprint table).create)).2) ∧
    (∀ table, (s.drop bb table).2 =
      (s.build bb (s.createBlueprint table).drop).2) ∧
    (∀ table columns, (s.dropColumns bb table columns).2 =
      (s.build bb ((s.createBlueprint table).dropColumn columns)).2) ∧
    (∀ table, (s.dropIfExists bb table).2 =
      (s.build bb (s.createBlueprint table).dropIfExists).2) ∧
    (∀ from_ toName, (s.renameTable bb from_ toName).2 =
      (s.build bb ((s.createBlueprint from_).rename toName)).2) ∧
    (∀ table cb, (s.table bb table cb).2 =
      (s.build bb (cb (s.createBlueprint table))).2) := by
  refine ⟨?_, ?_, ?_, ?_, ?_, ?_, ?_, ?_⟩
  · intro h
    simp [Schema.build, h]
  · intro h
    refine ⟨?_, ?_⟩
    · intro e he
      simp [Schema.build, h, Orm.transaction, he]
    · intro he
      simp [Schema.build, h, Orm.transaction, he]
  · intro table cb
    rcases h : s.build bb (cb (s.createBlueprint table).create) with ⟨r, evs⟩
    cases r <;> simp [Schema.create, h]
  · intro table
    rcases h : s.build bb (s.createBlueprint table).drop with ⟨r, evs⟩
    cases r <;> simp [Schema.drop, h]
  · intro table columns
    rcases h : s.build bb ((s.createBlueprint table).dropColumn columns) with ⟨r, evs⟩
    cases r <;> simp [Schema.dropColumns, h]
  · intro table
    rcases h : s.build bb (s.createBlueprint table).dropIfExists with ⟨r, evs⟩
    cases r <;> simp [Schema.dropIfExists, h]
  · intro from_ toName
    rcases h : s.build bb ((s.createBlueprint from_).rename toName) with ⟨r, evs⟩
    cases r <;> simp [Schema.renameTable, h]
  · intro table cb
    rcases h : s.build bb (cb (s.createBlueprint table)) with ⟨r, evs⟩
    cases r <;> simp [Schema.table, h]

/-- Witness for C1: a concrete schema outside any transaction with a
failing build step ends in a single rolled-back transaction carrying the
build error. -/
theorem build_transaction_protocol_witness :
    ((sA.orm.query).inTx = false ∧ bbFail bpT { inTx := true } = .error "boom") ∧
    sA.build bbFail bpT = (.error "boom", [TxEvent.beginTx, TxEvent.rollbackTx]) :=
  ⟨⟨rfl, rfl⟩,
    ((build_transaction_protocol sA bbFail bpT).2.1 rfl).1 "boom" rfl⟩

/-- C5: every mutating operation wraps an error of its transactional build
with the operation-specific error kind carrying the table name and the
underlying cause (`FailedToCreateTable` for Create, `FailedToDropTable`
for Drop and DropIfExists, `FailedToDropColumns` for DropColumns,
`FailedToRenameTable` for Rename, `FailedToChangeTable` for Table), and
returns nil when the build succeeds. -/
theorem mutating_ops_wrap_build_errors (s : Schema) (bb : BuildStep)
    (table from_ toName : String) (cb : Blueprint → Blueprint)
    (columns : List String) :
    ((∀ e, (s.build bb (cb (s.createBlueprint table).create)).1 = .error e →
        (s.create bb table cb).1 = .error (.failedToCreateTable table e)) ∧
      ((s.build bb (cb (s.createBlueprint table).create)).1 = .ok () →
        (s.create bb table cb).1 = .ok ())) ∧
    ((∀ e, (s.build bb (s.createBlueprint table).drop).1 = .error e →
        (s.drop bb table).1 = .error (.failedToDropTable table e)) ∧
      ((s.build bb (s.createBlueprint table).drop).1 = .ok () →
        (s.drop bb table).1 = .ok ())) ∧
    ((∀ e, (s.build bb ((s.createBlueprint table).dropColumn columns)).1 = .error e →
        (s.dropColumns bb table columns).1 = .error (.failedToDropColumns table e)) ∧
      ((s.build bb ((s.createBlueprint table).dropColumn columns)).1 = .ok () →
        (s.dropColumns bb table columns).1 = .ok ())) ∧
    ((∀ e, (s.build bb (s.createBlueprint table).dropIfExists).1 = .error e →
        (s.dropIfExists bb table).1 = .error (.failedToDropTable table e)) ∧
      ((s.build bb (s.createBlueprint table).dropIfExists).1 = .ok () →
        (s.dropIfExists bb table).1 = .ok ())) ∧
    ((∀ e, (s.build bb ((s.createBlueprint from_).rename toName)).1 = .error e →
        (s.renameTable bb from_ toName).1 = .error (.failedToRenameTable from_ e)) ∧
      ((s.build bb ((s.createBlueprint from_).rename toName)).1 = .ok () →
        (s.renameTable bb from_ toName).1 = .ok ())) ∧
    ((∀ e, (s.build bb (cb (s.createBlueprint table))).1 = .error e →
        (s.table bb table cb).1 = .error (.failedToChangeTable table e)) ∧
      ((s.build bb (cb (s.createBlueprint table))).1 = .ok () →
        (s.table bb table cb).1 = .ok ())) := by
  refine ⟨⟨?_, ?_⟩, ⟨?_, ?_⟩, ⟨?_, ?_⟩, ⟨?_, ?_⟩, ⟨?_, ?_⟩, ⟨?_, ?_⟩⟩ <;>
    first
    | (intro e he
       rcases h : s.build bb _ with ⟨r, evs⟩
       rw [h] at he
       cases r <;> simp_all [Schema.create, Schema.drop, Schema.dropColumns,
         Schema.dropIfExists, Schema.renameTable, Schema.table])
    | (intro he
       rcases h : s.build bb _ with ⟨r, evs⟩
       rw [h] at he
       cases r <;> simp_all [Schema.create, Schema.drop, Schema.dropColumns,
         Schema.dropIfExists, Schema.renameTable, Schema.table])

/-- Witness for C5: a concrete schema with a failing build step makes
Create return the build error wrapped as FailedToCreateTable naming the
table. -/
theorem mutating_ops_wrap_build_errors_witness :
    (sA.build bbFail (id (sA.createBlueprint "t").create)).1 = .error "boom" ∧
    (sA.create bbFail "t" id).1 =
      .error (.failedToCreateTable "t" "boom") :=
  ⟨rfl,
    (mutating_ops_wrap_build_errors sA bbFail "t" "f" "g" id []).1.1 "boom" rfl⟩

/-- C3: Schema construction with a driver string that is none of postgres,
mysql, sqlserver, sqlite fails with the `SchemaDriverNotSupported` fatal
error naming that driver and returns no Schema; for each of the four
supported drivers it succeeds and selects the matching Grammar, Processor
and DriverSchema. -/
theorem newSchema_driver_dispatch (cfg : Config) (lg : String) (orm : Orm)
    (migs : List Migration) (d : String)
    (hd : cfg.getString (connKey orm.name "driver") = d) :
    (d ∉ [DriverPostgres, DriverMysql, DriverSqlserver, DriverSqlite] →
      NewSchema cfg lg orm migs = .error (.schemaDriverNotSupported d)) ∧
    (d = DriverPostgres →
      NewSchema cfg lg orm migs = .ok
        { driverSchema := .postgres
            (.postgres (cfg.getString (connKey orm.name "prefix"))) orm
            (cfg.getStringD (connKey orm.name "schema") "public")
            (cfg.getString (connKey orm.name "prefix")),
          config := cfg,
          grammar := .postgres (cfg.getString (connKey orm.name "prefix")),
          log := lg, migrations := migs, orm := orm,
          pfx := cfg.getString (connKey orm.name "prefix"),
          processor := .postgres,
          schema := cfg.getStringD (connKey orm.name "schema") "public" }) ∧
    (d = DriverMysql →
      NewSchema cfg lg orm migs = .ok
        { driverSchema := .mysql
            (.mysql (cfg.getString (connKey orm.name "prefix"))) orm
            (cfg.getString (connKey orm.name "prefix")),
          config := cfg,
          grammar := .mysql (cfg.getString (connKey orm.name "prefix")),
          log := lg, migrations := migs, orm := orm,
          pfx := cfg.getString (connKey orm.name "prefix"),
          processor := .mysql,
          schema := cfg.getString (connKey orm.name "database") }) ∧
    (d = DriverSqlserver →
      NewSchema cfg lg orm migs = .ok
        { driverSchema := .sqlserver
            (.sqlserver (cfg.getString (connKey orm.name "prefix"))) orm
            (cfg.getString (connKey orm.name "prefix")),
          config := cfg,
          grammar := .sqlserver (cfg.getString (connKey orm.name "prefix")),
          log := lg, migrations := migs, orm := orm,
          pfx := cfg.getString (connKey orm.name "prefix"),
          processor := .sqlserver, schema := "" }) ∧
    (d = DriverSqlite →
      NewSchema cfg lg orm migs = .ok
        { driverSchema := .sqlite
            (.sqlite lg (cfg.getString (connKey orm.name "prefix"))) orm
            (cfg.getString (connKey orm.name "prefix")),
          config := cfg,
          grammar := .sqlite lg (cfg.getString (connKey orm.name "prefix")),
          log := lg, migrations := migs, orm := orm,
          pfx := cfg.getString (connKey orm.name "prefix"),
          processor := .sqlite, schema := "" }) := by
  subst hd
  refine ⟨?_, ?_, ?_, ?_, ?_⟩
  · intro h
    rw [List.mem_cons, List.mem_cons, List.mem_cons, List.mem_cons] at h
    push_neg at h
    simp [NewSchema, h.1, h.2.1, h.2.2.1, h.2.2.2.1]
  · intro h
    simp [NewSchema, h]
  · intro h
    simp [NewSchema, h, DriverPostgres, DriverMysql]
  · intro h
    simp [NewSchema, h, DriverPostgres, DriverMysql, DriverSqlserver]
  · intro h
    simp [NewSchema, h, DriverPostgres, DriverMysql, DriverSqlserver,
      DriverSqlite]

/-- Witness for C3: concrete configuration with driver string `oracle`
makes construction fail with SchemaDriverNotSupported naming it. -/
theorem newSchema_driver_dispatch_witness :
    (cfgBad.getString (connKey ormA.name "driver") = "oracle" ∧
      "oracle" ∉ [DriverPostgres, DriverMysql, DriverSqlserver, DriverSqlite]) ∧
    NewSchema cfgBad "lg" ormA [] =
      .error (.schemaDriverNotSupported "oracle") :=
  ⟨⟨rfl, by decide⟩,
    (newSchema_driver_dispatch cfgBad "lg" ormA [] "oracle" rfl).1 (by decide)⟩

/-- C2 (amended): `Connection(name)` produces a new logically-equivalent
Schema bound to the named connection, re-resolving the grammar, processor
and prefix / schema settings from configuration for that connection,
while `SetConnection(name)` only rebinds the orm handle to the named
connection and keeps the originally resolved grammar, processor, prefix
and schema. -/
theorem connection_reresolves_setConnection_rebinds (s : Schema)
    (n : String) :
    (∀ s2, s.connection n = .ok s2 →
      s2.orm = s.orm.connection n ∧
      s2.config = s.config ∧ s2.log = s.log ∧
      s2.migrations = s.migrations ∧
      specResolveDialect s.config s.log n =
        some (s2.grammar, s2.processor, s2.pfx, s2.schema)) ∧
    ((s.setConnection n).orm = s.orm.connection n ∧
      (s.setConnection n).grammar = s.grammar ∧
      (s.setConnection n).processor = s.processor ∧
      (s.setConnection n).pfx = s.pfx ∧
      (s.setConnection n).schema = s.schema) := by
  constructor
  · intro s2 h
    simp only [Schema.connection, NewSchema, Orm.connection] at h
    split_ifs at h with h1 h2 h3 h4 <;>
      simp only [Except.ok.injEq, reduceCtorEq] at h <;>
      subst h <;>
      refine ⟨rfl, rfl, rfl, rfl, ?_⟩ <;>
      simp_all [specResolveDialect, DriverPostgres, DriverMysql,
        DriverSqlserver, DriverSqlite]
  · exact ⟨rfl, rfl, rfl, rfl, rfl⟩

/-- Witness for C2: building `Connection("b")` from the concrete Schema of
connection `a` yields the Schema re-resolved for connection `b`. -/
theorem connection_reresolves_setConnection_rebinds_witness :
    sA.connection "b" = .ok sB ∧
    (sB.orm = sA.orm.connection "b" ∧ sB.config = sA.config ∧
      sB.log = sA.log ∧ sB.migrations = sA.migrations ∧
      specResolveDialect sA.config sA.log "b" =
        some (sB.grammar, sB.processor, sB.pfx, sB.schema)) :=
  ⟨rfl, (connection_reresolves_setConnection_rebinds sA "b").1 sB rfl⟩

/-- Counterexample for C2 as stated: `SetConnection("b")` on the Schema of
connection `a` rebinds the connection but keeps the postgres grammar and
processor resolved at original construction, while re-resolution from
configuration for connection `b` yields the mysql grammar and
processor. -/
theorem setConnection_no_reresolve_counterexample :
    NewSchema cfgAB "lg" ormA [] = .ok sA ∧
    (sA.setConnection "b").orm.name = "b" ∧
    specResolveDialect cfgAB "lg" "b" =
      some (Grammar.mysql "", Processor.mysql, "", "") ∧
    (sA.setConnection "b").grammar = Grammar.postgres "" ∧
    (sA.setConnection "b").processor = Processor.postgres ∧
    Grammar.postgres "" ≠ Grammar.mysql "" ∧
    Processor.postgres ≠ Processor.mysql :=
  ⟨rfl, rfl, rfl, rfl, rfl, by decide, by decide⟩

/-- C4 (amended): when the underlying introspection call fails, each
*Listing operation logs the error and returns the empty listing, and each
Has* predicate logs the error and returns false — except that HasColumns
applied to an empty requested-column list returns true (vacuous
membership) while still logging — and the error is never propagated. -/
theorem derived_queries_suppress_errors (s : Schema) (dq : DriverQueries) :
    (∀ table e, dq.getColumns table = .error e →
      (s.getColumnListing dq table).1 = [] ∧
        (s.getColumnListing dq table).2 ≠ []) ∧
    (∀ table e, dq.getIndexes table = .error e →
      (s.getIndexListing dq table).1 = [] ∧
        (s.getIndexListing dq table).2 ≠ []) ∧
    (∀ e, dq.getTables = .error e →
      (s.getTableListing dq).1 = [] ∧ (s.getTableListing dq).2 ≠ []) ∧
    (∀ table column e, dq.getColumns table = .error e →
      (s.hasColumn dq table column).1 = false ∧
        (s.hasColumn dq table column).2 ≠ []) ∧
    (∀ table columns e, dq.getColumns table = .error e →
      (columns ≠ [] → (s.hasColumns dq table columns).1 = false) ∧
      (columns = [] → (s.hasColumns dq table columns).1 = true) ∧
      (s.hasColumns dq table columns).2 ≠ []) ∧
    (∀ table index e, dq.getIndexes table = .error e →
      (s.hasIndex dq table index).1 = false ∧
        (s.hasIndex dq table index).2 ≠ []) ∧
    (∀ name e, dq.getTables = .error e →
      (s.hasTable dq name).1 = false ∧ (s.hasTable dq name).2 ≠ []) ∧
    (∀ name e, dq.getTypes = .error e →
      (s.hasType dq name).1 = false ∧ (s.hasType dq name).2 ≠ []) ∧
    (∀ name e, dq.getViews = .error e →
      (s.hasView dq name).1 = false ∧ (s.hasView dq name).2 ≠ []) := by
  refine ⟨?_, ?_, ?_, ?_, ?_, ?_, ?_, ?_, ?_⟩
  · intro table e h
    simp [Schema.getColumnListing, h]
  · intro table e h
    simp [Schema.getIndexListing, h]
  · intro e h
    simp [Schema.getTableListing, h]
  · intro table column e h
    simp [Schema.hasColumn, Schema.getColumnListing, h]
  · intro table columns e h
    refine ⟨?_, ?_, ?_⟩
    · intro hc
      cases columns with
      | nil => exact absurd rfl hc
      | cons c rest => simp [Schema.hasColumns, Schema.getColumnListing, h]
    · intro hc
      subst hc
      simp [Schema.hasColumns, Schema.getColumnListing, h]
    · simp [Schema.hasColumns, Schema.getColumnListing, h]
  · intro table index e h
    simp [Schema.hasIndex, Schema.getIndexListing, h]
  · intro name e h
    simp [Schema.hasTable, h]
  · intro name e h
    simp [Schema.hasType, h]
  · intro name e h
    simp [Schema.hasView, h]

/-- Witness for C4: the failing introspector makes GetColumnListing return
the empty listing with a logged message, and HasTable return false with a
logged message. -/
theorem derived_queries_suppress_errors_witness :
    (dqBoom.getColumns "t" = .error "boom" ∧
      (sA.getColumnListing dqBoom "t").1 = [] ∧
      (sA.getColumnListing dqBoom "t").2 ≠ []) ∧
    (dqBoom.getTables = .error "boom" ∧
      (sA.hasTable dqBoom "users").1 = false ∧
      (sA.hasTable dqBoom "users").2 ≠ []) := by
  have h := derived_queries_suppress_errors sA dqBoom
  exact ⟨⟨rfl, h.1 "t" "boom" rfl⟩,
    ⟨rfl, h.2.2.2.2.2.2.1 "users" "boom" rfl⟩⟩

/-- Counterexample for C4 as stated: with a failing introspector,
HasColumns applied to an empty requested-column list returns true, not
false. -/
theorem hasColumns_vacuous_on_failure_counterexample :
    dqBoom.getColumns "t" = .error "boom" ∧
    (sA.hasColumns dqBoom "t" []).1 = true :=
  ⟨rfl, rfl⟩

/-- C6 (amended): when table introspection succeeds, `HasTable` with a
schema-qualified argument whose schema part (the text before the last
dot) is nonempty returns true exactly when some reported table's Name
equals the prefix concatenated with the part after the last dot and whose
Schema equals the schema part exactly; with an unqualified argument, or a
qualified argument whose schema part is empty, it returns true exactly
when some reported table's Name equals the prefixed name, regardless of
that table's Schema. -/
theorem hasTable_qualified_matching (s : Schema) (dq : DriverQueries)
    (tables : List Table) (hT : dq.getTables = .ok tables) :
    (∀ pre post, '.' ∉ post → pre ≠ [] →
      (((s.hasTable dq (String.mk (pre ++ '.' :: post))).1 = true) ↔
        ∃ t ∈ tables, t.name = s.pfx ++ String.mk post ∧
          t.schema = String.mk pre)) ∧
    (∀ post, '.' ∉ post →
      (((s.hasTable dq (String.mk ('.' :: post))).1 = true) ↔
        ∃ t ∈ tables, t.name = s.pfx ++ String.mk post)) ∧
    (∀ nm : String, '.' ∉ nm.data →
      (((s.hasTable dq nm).1 = true) ↔
        ∃ t ∈ tables, t.name = s.pfx ++ nm)) := by
  refine ⟨?_, ?_, ?_⟩
  · intro pre post hpost hpre
    rw [hasTable_split_iff s dq tables hT pre post hpost]
    simp [hpre]
  · intro post hpost
    rw [show ('.' :: post : List Char) = [] ++ '.' :: post from rfl,
      hasTable_split_iff s dq tables hT [] post hpost]
    simp
  · intro nm hnm
    exact hasTable_nodot_iff s dq tables hT nm hnm

/-- Witness for C6: on a database reporting the single table `t` in schema
`s`, the qualified lookup for `s.t` matches exactly the tables named `t`
whose schema is `s`. -/
theorem hasTable_qualified_matching_witness :
    (dqTbl.getTables = .ok [tblTS] ∧ '.' ∉ ['t'] ∧ (['s'] : List Char) ≠ []) ∧
    (((sA.hasTable dqTbl (String.mk (['s'] ++ '.' :: ['t']))).1 = true) ↔
      ∃ t ∈ [tblTS], t.name = sA.pfx ++ String.mk ['t'] ∧
        t.schema = String.mk ['s']) :=
  ⟨⟨rfl, by decide, by decide⟩,
    (hasTable_qualified_matching sA dqTbl [tblTS] rfl).1 ['s'] ['t']
      (by decide) (by decide)⟩

/-- Counterexample for C6 as stated: the qualified name `.t` has the empty
schema part, and `HasTable(".t")` returns true although the only reported
table's Schema is `s`, not the empty schema part. -/
theorem hasTable_empty_qualifier_counterexample :
    dqTbl.getTables = .ok [tblTS] ∧
    (sA.hasTable dqTbl ".t").1 = true ∧
    tblTS.schema = "s" ∧ tblTS.schema ≠ "" :=
  ⟨rfl, by decide, rfl, by decide⟩

/-- C7: whenever the corresponding introspection call succeeds, the
listing operations return exactly the sequence of Name fields of the
returned entities, in the same order. -/
theorem listings_project_names (s : Schema) (dq : DriverQueries) :
    (∀ table columns, dq.getColumns table = .ok columns →
      (s.getColumnListing dq table).1 = columns.map Column.name) ∧
    (∀ table indexes, dq.getIndexes table = .ok indexes →
      (s.getIndexListing dq table).1 = indexes.map Index.name) ∧
    (∀ tables, dq.getTables = .ok tables →
      (s.getTableListing dq).1 = tables.map Table.name) := by
  refine ⟨?_, ?_, ?_⟩
  · intro table columns h
    simp [Schema.getColumnListing, h]
  · intro table indexes h
    simp [Schema.getIndexListing, h]
  · intro tables h
    simp [Schema.getTableListing, h]

/-- Witness for C7: with an introspector returning one column, one index
and one table, the listings are exactly the projected names. -/
theorem listings_project_names_witness :
    (dqOk.getColumns "t" = .ok [colC] ∧
      (sA.getColumnListing dqOk "t").1 = [colC].map Column.name) ∧
    (dqOk.getIndexes "t" = .ok [idxI] ∧
      (sA.getIndexListing dqOk "t").1 = [idxI].map Index.name) ∧
    (dqOk.getTables = .ok [tblTS] ∧
      (sA.getTableListing dqOk).1 = [tblTS].map Table.name) := by
  have h := listings_project_names sA dqOk
  exact ⟨⟨rfl, h.1 "t" [colC] rfl⟩, ⟨rfl, h.2.1 "t" [idxI] rfl⟩,
    ⟨rfl, h.2.2 [tblTS] rfl⟩⟩

/-- C8: `GetForeignKeys(table)` runs the Grammar-compiled query for the
configured schema and the prefixed table name; on failure it returns the
underlying error unwrapped with no result, and on success it returns the
Processor-normalized foreign keys. -/
theorem getForeignKeys_prefix_compile_propagate (s : Schema)
    (fc : ForeignKeyCollab) (table : String) :
    (∀ e, fc.rawScan (fc.compileForeignKeys s.schema (s.pfx ++ table)) =
        .error e →
      s.getForeignKeys fc table = .error e) ∧
    (∀ rows, fc.rawScan (fc.compileForeignKeys s.schema (s.pfx ++ table)) =
        .ok rows →
      s.getForeignKeys fc table = .ok (fc.processForeignKeys rows)) := by
  constructor
  · intro e h
    simp [Schema.getForeignKeys, h]
  · intro rows h
    simp [Schema.getForeignKeys, h]

/-- Witness for C8: a failing query execution makes GetForeignKeys return
exactly the underlying error. -/
theorem getForeignKeys_prefix_compile_propagate_witness :
    fcBoom.rawScan (fcBoom.compileForeignKeys sA.schema (sA.pfx ++ "t")) =
      .error "boom" ∧
    sA.getForeignKeys fcBoom "t" = .error "boom" :=
  ⟨rfl,
    (getForeignKeys_prefix_compile_propagate sA fcBoom "t").1 "boom" rfl⟩

/-- C10: for a name containing more than one dot, `HasTable` splits at the
last dot: everything before the last dot (which may itself contain dots)
is the schema qualifier compared exactly, and only the final segment is
prefixed and compared against table names. -/
theorem hasTable_splits_at_last_dot (s : Schema) (dq : DriverQueries)
    (tables : List Table) (hT : dq.getTables = .ok tables)
    (pre mid post : List Char) (hpost : '.' ∉ post) :
    ((s.hasTable dq
        (String.mk (pre ++ '.' :: (mid ++ '.' :: post)))).1 = true) ↔
      ∃ t ∈ tables, t.name = s.pfx ++ String.mk post ∧
        t.schema = String.mk (pre ++ '.' :: mid) := by
  have hsplit : pre ++ '.' :: (mid ++ '.' :: post) =
      (pre ++ '.' :: mid) ++ '.' :: post := by
    simp
  rw [hsplit, hasTable_split_iff s dq tables hT (pre ++ '.' :: mid) post hpost]
  simp

/-- Witness for C10: looking up `a.b.c` on a database reporting table `c`
in schema `a.b` matches exactly on the final segment and the dotted schema
qualifier. -/
theorem hasTable_splits_at_last_dot_witness :
    (dqABC.getTables = .ok [tblABC] ∧ '.' ∉ ['c']) ∧
    (((sA.hasTable dqABC
        (String.mk (['a'] ++ '.' :: (['b'] ++ '.' :: ['c'])))).1 = true) ↔
      ∃ t ∈ [tblABC], t.name = sA.pfx ++ String.mk ['c'] ∧
        t.schema = String.mk (['a'] ++ '.' :: ['b'])) :=
  ⟨⟨rfl, by decide⟩,
    hasTable_splits_at_last_dot sA dqABC [tblABC] rfl ['a'] ['b'] ['c']
      (by decide)⟩

end Goravel
